import Mathlib

/-!
Verification development for the JSDOM backend of the ersatz WebView
test double. The definitions below are a shallow embedding of
`src/JSDOMBackend.tsx`: the `initDOM` construction of a headless DOM
instance, the lifecycle event dispatches it wires up, and the backend
bridge component with its imperative handle. The headless DOM engine
itself (jsdom) is treated as a black box that parses the markup and
fires `DOMContentLoaded` and then `load` asynchronously after the
constructor returns; the embedding records the actions the backend
performs at each of these phases as an explicit trace.
-/

namespace Ersatz

/-- A JavaScript runtime value as far as the message bridge can observe
it: the bridge only inspects whether `typeof message` is the string
tag for strings. -/
inductive JSValue where
  | str (s : String)
  | num (n : Int)
  | boolean (b : Bool)
  | undef
  | objectVal
deriving DecidableEq

/-- The result of the `typeof message !== "string"` test in `postMessage`
in `src/JSDOMBackend.tsx`. -/
def JSValue.typeofIsString : JSValue → Bool
  | .str _ => true
  | _ => false

/-- The navigation state of the headless DOM window: `location.href` and
`document.title`, the two fields the `eventBase` getters of
`src/JSDOMBackend.tsx` read. -/
structure NavState where
  href : String
  title : String
deriving DecidableEq

/-- The payload of a synthetic WebView event, as assembled by the spread
expressions in `src/JSDOMBackend.tsx`: `eventBase` always contributes
`url` and `title`; the other fields are present only on the events that
set them. -/
structure EventPayload where
  url : String
  title : String
  loading : Option Bool := none
  navigationType : Option String := none
  progress : Option Nat := none
  data : Option String := none
deriving DecidableEq

/-- Modelled from the spec: `createNativeEvent` lives in `src/events.ts`,
which is not part of the sources at hand; per the spec it wraps a payload
into a synthetic native-event object whose `nativeEvent` field holds the
payload unchanged. -/
structure NativeEvent (α : Type) where
  nativeEvent : α
deriving DecidableEq

/-- Modelled from the spec: the wrapping performed by `createNativeEvent`
of `src/events.ts`. -/
def createNativeEvent (payload : α) : NativeEvent α := ⟨payload⟩

/-- The six lifecycle callbacks a host may supply through `domHandlers`. -/
inductive Callback where
  | onMessage
  | onLoad
  | onLoadStart
  | onLoadProgress
  | onLoadEnd
  | onNavigationStateChange
deriving DecidableEq

/-- Modelled from the spec: `DOMHandlers` is declared in `src/types.ts`,
which is not part of the sources at hand; per the spec every callback is
optional. The embedding records for each callback whether the host
supplied it (`typeof cb === "function"` in the source guards). -/
structure DOMHandlers where
  onMessage : Bool
  onLoad : Bool
  onLoadStart : Bool
  onLoadProgress : Bool
  onLoadEnd : Bool
  onNavigationStateChange : Bool
deriving DecidableEq

/-- Whether a given callback was supplied. -/
def handlerPresent (h : DOMHandlers) : Callback → Bool
  | .onMessage => h.onMessage
  | .onLoad => h.onLoad
  | .onLoadStart => h.onLoadStart
  | .onLoadProgress => h.onLoadProgress
  | .onLoadEnd => h.onLoadEnd
  | .onNavigationStateChange => h.onNavigationStateChange

/-- A handler set with every callback supplied. -/
def allHandlers : DOMHandlers := ⟨true, true, true, true, true, true⟩

/-- A handler set with no callback supplied. -/
def noHandlers : DOMHandlers := ⟨false, false, false, false, false, false⟩

/-- One dispatched callback invocation: which callback ran and the payload
it carried. -/
structure Dispatch where
  cb : Callback
  payload : EventPayload
deriving DecidableEq

/-- The guard pattern of `src/JSDOMBackend.tsx`: every dispatch is written
as a conjunction with a presence test, so a missing handler produces no
invocation. -/
def dispatchIf (present : Bool) (d : Dispatch) : List Dispatch :=
  if present then [d] else []

/-- The parameters of `initDOM` in `src/JSDOMBackend.tsx`. Optional string
parameters are `Option String`; `javaScriptEnabled` is an optional
boolean whose JavaScript truthiness the code tests. -/
structure InitDOMParams where
  html : String
  url : Option String
  injectedJavaScriptBeforeContentLoaded : Option String
  injectedJavascript : Option String
  javaScriptEnabled : Option Bool
  userAgent : Option String
  handlers : DOMHandlers
  loadCycleId : Nat
deriving DecidableEq

/-- JavaScript truthiness of the `javaScriptEnabled` option as used in
`runScripts: javaScriptEnabled ? "dangerously" : undefined`. -/
def jsFlag (p : InitDOMParams) : Bool := p.javaScriptEnabled.getD false

/-- JavaScript truthiness of an optional script parameter: the source
tests the string itself (`injectedJavascript && ...`), so an absent or
empty script yields no execution. The truthy case is returned as a
one-element list of scripts to run. -/
def truthyList : Option String → List String
  | some s => if s == "" then [] else [s]
  | none => []

/-- The url option handed to the JSDOM constructor: the computed key
`[url ? "url" : ""]` drops a falsy url, in which case jsdom defaults the
document location to about:blank. -/
def resolvedUrl : Option String → String
  | some s => if s == "" then "about:blank" else s
  | none => "about:blank"

/-- The `eventBase` object of `initDOM`: getters reading `url` and `title`
from the current navigation state of the DOM window. A spread of
`eventBase` evaluates the getters at spread time, so each payload below
takes the navigation state observed at that moment as a parameter. -/
def eventBase (nav : NavState) : EventPayload :=
  { url := nav.href, title := nav.title }

/-- The payload of the start event built right before `initDOM` returns:
a spread of `eventBase` plus `loading: true` and `navigationType`. -/
def startEventPayload (nav : NavState) : EventPayload :=
  { eventBase nav with loading := some true, navigationType := some "other" }

/-- The payload of the `loadEvent` built inside the full-load listener. -/
def loadEventPayload (nav : NavState) : EventPayload :=
  { eventBase nav with navigationType := some "other" }

/-- The payload of the `loadProgress` event built inside the full-load
listener: progress is the literal 1. -/
def progressEventPayload (nav : NavState) : EventPayload :=
  { eventBase nav with progress := some 1 }

/-- The payload of a message event: a spread of `eventBase` plus the
posted string under `data`. -/
def messageEventPayload (nav : NavState) (data : String) : EventPayload :=
  { eventBase nav with data := some data }

/-- The `postMessage` closure of `initDOM`: a non-string argument throws a
descriptive error (modelled as `Except.error`); a string argument is
forwarded to `onMessage` when that callback is supplied, wrapped in a
navigation-style payload carrying the string under `data`. -/
def postMessageFn (onMessagePresent : Bool) (nav : NavState) :
    JSValue → Except String (List Dispatch)
  | .str s =>
    .ok (dispatchIf onMessagePresent ⟨.onMessage, messageEventPayload nav s⟩)
  | _ => .error "WebView: the argument of postMessage must be a string"

/-- The function installed as `window.postMessage` in `beforeParse`. -/
def windowPostMessage : Bool → NavState → JSValue → Except String (List Dispatch) :=
  postMessageFn

/-- The function installed as `window.ReactNativeWebView.postMessage` in
`beforeParse`: the very same closure as `window.postMessage`. -/
def reactNativeWebViewPostMessage :
    Bool → NavState → JSValue → Except String (List Dispatch) :=
  postMessageFn

/-- The document object of the headless DOM window, as far as the backend
observes it. -/
structure Document where
  title : String
deriving DecidableEq

/-- The headless DOM window: its location, its document, which bridge
functions `beforeParse` installed, the scripts evaluated through
`window.eval` in order, and the user agent the instance was created
with. -/
structure Window where
  locationHref : String
  document : Document
  postMessageInstalled : Bool
  reactNativeWebViewInstalled : Bool
  evaluatedScripts : List String
  userAgent : Option String
deriving DecidableEq

/-- A headless DOM instance (the `JSDOM` object returned by the
constructor). -/
structure JSDOM where
  window : Window
deriving DecidableEq

/-- Effect of `window.eval(src)` on the observable window state: the
script is executed in the window script context. -/
def windowEval (w : Window) (src : String) : Window :=
  { w with evaluatedScripts := w.evaluatedScripts ++ [src] }

/-- The window as the JSDOM constructor creates it from the options
object, before `beforeParse` runs. -/
def initialWindow (p : InitDOMParams) : Window :=
  { locationHref := resolvedUrl p.url
    document := { title := "" }
    postMessageInstalled := false
    reactNativeWebViewInstalled := false
    evaluatedScripts := []
    userAgent := p.userAgent }

/-- The `beforeParse` hook of `initDOM`: install the two message bridges
and, when a before-content-loaded script was supplied (truthy), evaluate
it synchronously — with no test of the script-execution flag. -/
def beforeParse (p : InitDOMParams) (w : Window) : Window :=
  (truthyList p.injectedJavaScriptBeforeContentLoaded).foldl windowEval
    { w with postMessageInstalled := true, reactNativeWebViewInstalled := true }

/-- The headless DOM instance as returned by `new JSDOM(html, options)`
inside `initDOM`. -/
def newJSDOM (p : InitDOMParams) : JSDOM :=
  ⟨beforeParse p (initialWindow p)⟩

/-- Current navigation state of a window. -/
def navOfWindow (w : Window) : NavState :=
  ⟨w.locationHref, w.document.title⟩

/-- The scripts the `DOMContentLoaded` listener of `initDOM` evaluates:
the injected main script runs only when the script-execution flag is
truthy and the script itself is truthy. -/
def contentLoadedScripts (p : InitDOMParams) : List String :=
  if jsFlag p then truthyList p.injectedJavascript else []

/-- The dispatches of the `load` listener of `initDOM`, in source order:
progress, load, load end, navigation state change. The navigation state
is the one observed when the load signal fires, because the `eventBase`
spreads happen inside the listener body. -/
def loadListener (h : DOMHandlers) (nav : NavState) : List Dispatch :=
  dispatchIf h.onLoadProgress ⟨.onLoadProgress, progressEventPayload nav⟩ ++
  dispatchIf h.onLoad ⟨.onLoad, loadEventPayload nav⟩ ++
  dispatchIf h.onLoadEnd ⟨.onLoadEnd, loadEventPayload nav⟩ ++
  dispatchIf h.onNavigationStateChange ⟨.onNavigationStateChange, loadEventPayload nav⟩

/-- The unguarded full-load dispatch sequence, used to state that the
actual listener is exactly this sequence filtered by handler presence. -/
def fullLoadSeq (nav : NavState) : List Dispatch :=
  [⟨.onLoadProgress, progressEventPayload nav⟩,
   ⟨.onLoad, loadEventPayload nav⟩,
   ⟨.onLoadEnd, loadEventPayload nav⟩,
   ⟨.onNavigationStateChange, loadEventPayload nav⟩]

/-- The two synchronous dispatches at the end of `initDOM`: `onLoadStart`
with the start event, then `onNavigationStateChange` with the same
payload (the source passes `startEvent.nativeEvent`). -/
def startDispatches (h : DOMHandlers) (nav : NavState) : List Dispatch :=
  dispatchIf h.onLoadStart ⟨.onLoadStart, startEventPayload nav⟩ ++
  dispatchIf h.onNavigationStateChange ⟨.onNavigationStateChange, startEventPayload nav⟩

/-- The unguarded start dispatch sequence. -/
def startSeq (nav : NavState) : List Dispatch :=
  [⟨.onLoadStart, startEventPayload nav⟩,
   ⟨.onNavigationStateChange, startEventPayload nav⟩]

/-- One observable action of the backend during a load cycle: a DOM
construction (tagged with the load cycle id it was built for), a bridge
installation, a script evaluation, or a callback dispatch. -/
inductive Action where
  | construct (loadCycleId : Nat)
  | installBridge (name : String)
  | evalScript (src : String)
  | dispatch (d : Dispatch)
deriving DecidableEq

/-- The actions `initDOM` performs synchronously, in source order: the
constructor runs `beforeParse` (bridge installation, unconditional
before-content-loaded evaluation), the listeners are registered, and then
the start event is dispatched before `initDOM` returns. -/
def constructionTrace (p : InitDOMParams) : List Action :=
  [.construct p.loadCycleId,
   .installBridge "postMessage",
   .installBridge "ReactNativeWebView.postMessage"] ++
  (truthyList p.injectedJavaScriptBeforeContentLoaded).map .evalScript ++
  (startDispatches p.handlers (navOfWindow (newJSDOM p).window)).map .dispatch

/-- The value and the synchronous action trace of one `initDOM` call. -/
def initDOM (p : InitDOMParams) : JSDOM × List Action :=
  (newJSDOM p, constructionTrace p)

/-- The action trace of one full load cycle of a DOM instance, in engine
order: the synchronous construction actions, then the content-loaded
phase, then the full-load phase observed at navigation state `navL`. -/
def lifecycleTrace (p : InitDOMParams) (navL : NavState) : List Action :=
  constructionTrace p ++
  (contentLoadedScripts p).map .evalScript ++
  (loadListener p.handlers navL).map .dispatch

/-- Projection of a trace to its callback dispatches. -/
def dispatchesOf (t : List Action) : List Dispatch :=
  t.filterMap fun a => match a with
    | .dispatch d => some d
    | _ => none

/-- Projection of a trace to the load cycle ids of its constructions. -/
def constructTags (t : List Action) : List Nat :=
  t.filterMap fun a => match a with
    | .construct i => some i
    | _ => none

/-- Replace the handler set of an `initDOM` parameter record. -/
def withHandlers (q : InitDOMParams) (h : DOMHandlers) : InitDOMParams :=
  { q with handlers := h }

/-- Supply a before-content-loaded script and a script-execution flag in
an `initDOM` parameter record. -/
def withBeforeScript (q : InitDOMParams) (s : String) (flag : Option Bool) :
    InitDOMParams :=
  { q with injectedJavaScriptBeforeContentLoaded := some s
           javaScriptEnabled := flag }

/-! The backend bridge component (`JSDOMBackend` in the source): it owns
one DOM instance, re-derives it whenever the configuration or the load
cycle counter changes, tracks the coarse load status and exposes the
imperative handle. The embedding is a sequential state machine: each
imperative call or engine signal is one step, and a state update is
followed by the re-render it induces before the next step runs. -/

/-- The coarse load status declared in `src/types.ts` (modelled from the
spec): the two string values of the `BackendState` type. -/
inductive BackendState where
  | loading
  | loaded
deriving DecidableEq

/-- The props of the `JSDOMBackend` component. Here `url` is required, as
in `DOMBackendProps`. -/
structure DOMBackendProps where
  html : String
  url : String
  injectedJavascript : Option String
  injectedJavaScriptBeforeContentLoaded : Option String
  javaScriptEnabled : Option Bool
  userAgent : Option String
  domHandlers : DOMHandlers
deriving DecidableEq

/-- The `initDOM` parameter record the component assembles inside its
`useMemo` for a given load cycle. The handler presence recorded here is
the presence supplied by the host; the wrapped `onLoad` of the component
always exists as a function, and its status side effect is taken as a
separate part of the load step below. -/
def mkParams (props : DOMBackendProps) (cycle : Nat) : InitDOMParams :=
  { html := props.html
    url := some props.url
    injectedJavaScriptBeforeContentLoaded := props.injectedJavaScriptBeforeContentLoaded
    injectedJavascript := props.injectedJavascript
    javaScriptEnabled := props.javaScriptEnabled
    userAgent := props.userAgent
    handlers := props.domHandlers
    loadCycleId := cycle }

/-- The mounted component state: the `backendState` and `loadCycleId`
React state variables, the current DOM instance from `useMemo`, the
accumulated lifecycle action trace, and the console warnings emitted so
far. -/
structure BackendModel where
  backendState : BackendState
  loadCycleId : Nat
  dom : JSDOM
  trace : List Action
  warnings : List String
deriving DecidableEq

/-- The state right after mounting: `backendState` starts at loading,
`loadCycleId` starts at 0, and the first `initDOM` call has run. -/
def mount (props : DOMBackendProps) : BackendModel :=
  { backendState := .loading
    loadCycleId := 0
    dom := (initDOM (mkParams props 0)).1
    trace := (initDOM (mkParams props 0)).2
    warnings := [] }

/-- One step of the mounted component: an imperative handle call, or one
of the two signals the DOM engine delivers for the current instance. -/
inductive Cmd where
  | reload
  | stopLoading
  | goBack
  | goForward
  | injectJavascript (script : String)
  | engineContentLoaded
  | engineLoad
deriving DecidableEq

/-- The `reload` handle operation: increment the load cycle counter; the
changed `useMemo` dependency tears the DOM down and runs `initDOM`
afresh. No other state variable is touched. -/
def reloadStep (props : DOMBackendProps) (st : BackendModel) : BackendModel :=
  { st with
    loadCycleId := st.loadCycleId + 1
    dom := (initDOM (mkParams props (st.loadCycleId + 1))).1
    trace := st.trace ++ (initDOM (mkParams props (st.loadCycleId + 1))).2 }

/-- An unimplemented handle operation: emit the given console warning and
change nothing else. -/
def warnStep (msg : String) (st : BackendModel) : BackendModel :=
  { st with warnings := st.warnings ++ [msg] }

/-- The engine fires `DOMContentLoaded` on the current instance: the
registered listener evaluates the injected main script when the flag and
the script are truthy. -/
def engineContentLoadedStep (props : DOMBackendProps) (st : BackendModel) :
    BackendModel :=
  { st with
    dom := ⟨(contentLoadedScripts (mkParams props st.loadCycleId)).foldl
      windowEval st.dom.window⟩
    trace := st.trace ++
      (contentLoadedScripts (mkParams props st.loadCycleId)).map .evalScript }

/-- The engine fires `load` on the current instance: the registered
listener dispatches the four full-load callbacks reading the navigation
state live, and the wrapped `onLoad` flips the backend status to
loaded. -/
def engineLoadStep (props : DOMBackendProps) (st : BackendModel) : BackendModel :=
  { st with
    backendState := .loaded
    trace := st.trace ++
      (loadListener props.domHandlers (navOfWindow st.dom.window)).map .dispatch }

/-- The `injectJavascript` handle operation: evaluate the script in the
current window only when the backend status is loaded; otherwise the
call does nothing at all. -/
def injectStep (script : String) (st : BackendModel) : BackendModel :=
  match st.backendState with
  | .loaded => { st with dom := ⟨windowEval st.dom.window script⟩ }
  | .loading => st

/-- The step function of the component state machine. -/
def step (props : DOMBackendProps) (st : BackendModel) : Cmd → BackendModel
  | .reload => reloadStep props st
  | .stopLoading => warnStep "stopLoading not implemented" st
  | .goBack => warnStep "goBack not implemented" st
  | .goForward => warnStep "goForward not implemented" st
  | .injectJavascript s => injectStep s st
  | .engineContentLoaded => engineContentLoadedStep props st
  | .engineLoad => engineLoadStep props st

/-- Let the engine of the current instance run to completion: the
content-loaded signal and then the full-load signal. -/
def engineSettle (props : DOMBackendProps) (st : BackendModel) : BackendModel :=
  engineLoadStep props (engineContentLoadedStep props st)

/-- Mount and let the first load cycle complete, then perform n reloads,
letting each reconstructed instance load fully. -/
def runFull (props : DOMBackendProps) : Nat → BackendModel
  | 0 => engineSettle props (mount props)
  | n + 1 => engineSettle props (reloadStep props (runFull props n))

/-- The full action trace one load cycle with id i contributes to the
component trace. -/
def cycleTrace (props : DOMBackendProps) (i : Nat) : List Action :=
  constructionTrace (mkParams props i) ++
  (contentLoadedScripts (mkParams props i)).map .evalScript ++
  (loadListener props.domHandlers
    (navOfWindow (newJSDOM (mkParams props i)).window)).map .dispatch

/-- The object `useImperativeHandle` builds: the seven documented
operations plus the `dom` property holding the current DOM instance.
Each operation field holds the state the call would produce (or, for the
getters, the value it returns). -/
structure JSDOMBackendHandle where
  dom : JSDOM
  reload : BackendModel
  stopLoading : BackendModel
  goBack : BackendModel
  goForward : BackendModel
  injectJavascript : String → BackendModel
  getDocument : Document
  getWindow : Window

/-- The handle exposed through the forwarded reference for the current
state. -/
def makeHandle (props : DOMBackendProps) (st : BackendModel) : JSDOMBackendHandle :=
  { dom := st.dom
    reload := step props st .reload
    stopLoading := step props st .stopLoading
    goBack := step props st .goBack
    goForward := step props st .goForward
    injectJavascript := fun s => step props st (.injectJavascript s)
    getDocument := st.dom.window.document
    getWindow := st.dom.window }

/-- The testID string of the placeholder view rendered for a state. -/
def renderTestId (st : BackendModel) : String :=
  "backend-" ++ (match st.backendState with
    | .loading => "loading"
    | .loaded => "loaded") ++ "-" ++ toString st.loadCycleId

/-- A sample handler set and configuration used for concrete witnesses. -/
def sampleProps : DOMBackendProps :=
  { html := "<html></html>"
    url := "https://foo.bar/"
    injectedJavascript := some "window.x = 1"
    injectedJavaScriptBeforeContentLoaded := some "window.y = 2"
    javaScriptEnabled := some true
    userAgent := none
    domHandlers := allHandlers }

/-- A sample navigation state used for concrete witnesses. -/
def sampleNav : NavState := ⟨"https://foo.bar/", "t"⟩

/-- A sample `initDOM` parameter record used for concrete witnesses. -/
def sampleParams : InitDOMParams := mkParams sampleProps 0

/-- The sample mount after its first load cycle completed. -/
def loadedSample : BackendModel := engineSettle sampleProps (mount sampleProps)

/-- The sample mount after a completed first load cycle followed by a
`reload` call. -/
def reloadedAfterLoad : BackendModel :=
  step sampleProps loadedSample Cmd.reload

/-! Helper lemmas about traces and windows. -/

theorem loadListener_eq_filter (h : DOMHandlers) (nav : NavState) :
    loadListener h nav =
      (fullLoadSeq nav).filter (fun d => handlerPresent h d.cb) := by
  cases h with
  | mk m l ls lp le nc =>
    cases l <;> cases lp <;> cases le <;> cases nc <;> rfl

theorem startDispatches_eq_filter (h : DOMHandlers) (nav : NavState) :
    startDispatches h nav =
      (startSeq nav).filter (fun d => handlerPresent h d.cb) := by
  cases h with
  | mk m l ls lp le nc =>
    cases ls <;> cases nc <;> rfl

theorem dispatchesOf_nil : dispatchesOf [] = [] := rfl

theorem dispatchesOf_cons_construct (i : Nat) (t : List Action) :
    dispatchesOf (Action.construct i :: t) = dispatchesOf t := by
  simp [dispatchesOf, List.filterMap_cons]

theorem dispatchesOf_cons_installBridge (s : String) (t : List Action) :
    dispatchesOf (Action.installBridge s :: t) = dispatchesOf t := by
  simp [dispatchesOf, List.filterMap_cons]

theorem dispatchesOf_cons_evalScript (s : String) (t : List Action) :
    dispatchesOf (Action.evalScript s :: t) = dispatchesOf t := by
  simp [dispatchesOf, List.filterMap_cons]

theorem dispatchesOf_cons_dispatch (d : Dispatch) (t : List Action) :
    dispatchesOf (Action.dispatch d :: t) = d :: dispatchesOf t := by
  simp [dispatchesOf, List.filterMap_cons]

theorem dispatchesOf_append (a b : List Action) :
    dispatchesOf (a ++ b) = dispatchesOf a ++ dispatchesOf b := by
  simp [dispatchesOf]

theorem dispatchesOf_evalMap (l : List String) :
    dispatchesOf (l.map Action.evalScript) = [] := by
  induction l with
  | nil => rfl
  | cons a t ih => simp [dispatchesOf_cons_evalScript, ih]

theorem dispatchesOf_dispatchMap (l : List Dispatch) :
    dispatchesOf (l.map Action.dispatch) = l := by
  induction l with
  | nil => rfl
  | cons a t ih => simp [dispatchesOf_cons_dispatch, ih]

theorem constructTags_nil : constructTags [] = [] := rfl

theorem constructTags_cons_construct (i : Nat) (t : List Action) :
    constructTags (Action.construct i :: t) = i :: constructTags t := by
  simp [constructTags, List.filterMap_cons]

theorem constructTags_cons_installBridge (s : String) (t : List Action) :
    constructTags (Action.installBridge s :: t) = constructTags t := by
  simp [constructTags, List.filterMap_cons]

theorem constructTags_cons_evalScript (s : String) (t : List Action) :
    constructTags (Action.evalScript s :: t) = constructTags t := by
  simp [constructTags, List.filterMap_cons]

theorem constructTags_cons_dispatch (d : Dispatch) (t : List Action) :
    constructTags (Action.dispatch d :: t) = constructTags t := by
  simp [constructTags, List.filterMap_cons]

theorem constructTags_append (a b : List Action) :
    constructTags (a ++ b) = constructTags a ++ constructTags b := by
  simp [constructTags]

theorem constructTags_evalMap (l : List String) :
    constructTags (l.map Action.evalScript) = [] := by
  induction l with
  | nil => rfl
  | cons a t ih => simp [constructTags_cons_evalScript, ih]

theorem constructTags_dispatchMap (l : List Dispatch) :
    constructTags (l.map Action.dispatch) = [] := by
  induction l with
  | nil => rfl
  | cons a t ih => simp [constructTags_cons_dispatch, ih]

theorem foldl_windowEval_locationHref (l : List String) (w : Window) :
    (l.foldl windowEval w).locationHref = w.locationHref := by
  induction l generalizing w with
  | nil => rfl
  | cons a t ih => simpa [List.foldl_cons, windowEval] using ih (windowEval w a)

theorem foldl_windowEval_document (l : List String) (w : Window) :
    (l.foldl windowEval w).document = w.document := by
  induction l generalizing w with
  | nil => rfl
  | cons a t ih => simpa [List.foldl_cons, windowEval] using ih (windowEval w a)

theorem navOfWindow_foldl (l : List String) (w : Window) :
    navOfWindow (l.foldl windowEval w) = navOfWindow w := by
  simp [navOfWindow, foldl_windowEval_locationHref, foldl_windowEval_document]

theorem evaluatedScripts_foldl (l : List String) (w : Window) :
    (l.foldl windowEval w).evaluatedScripts = w.evaluatedScripts ++ l := by
  induction l generalizing w with
  | nil => simp
  | cons a t ih => simp [List.foldl_cons, ih, windowEval]

theorem navOfWindow_newJSDOM (p : InitDOMParams) :
    navOfWindow (newJSDOM p).window = ⟨resolvedUrl p.url, ""⟩ := by
  simp [newJSDOM, beforeParse, navOfWindow, foldl_windowEval_locationHref,
    foldl_windowEval_document, initialWindow]

theorem evaluatedScripts_newJSDOM (p : InitDOMParams) :
    (newJSDOM p).window.evaluatedScripts =
      truthyList p.injectedJavaScriptBeforeContentLoaded := by
  simp [newJSDOM, beforeParse, evaluatedScripts_foldl, initialWindow]

theorem dispatchesOf_constructionTrace (p : InitDOMParams) :
    dispatchesOf (constructionTrace p) =
      startDispatches p.handlers (navOfWindow (newJSDOM p).window) := by
  simp [constructionTrace, dispatchesOf_append, dispatchesOf_evalMap,
    dispatchesOf_dispatchMap, dispatchesOf_cons_construct,
    dispatchesOf_cons_installBridge, dispatchesOf_nil]

theorem constructTags_constructionTrace (p : InitDOMParams) :
    constructTags (constructionTrace p) = [p.loadCycleId] := by
  simp [constructionTrace, constructTags_append, constructTags_evalMap,
    constructTags_dispatchMap, constructTags_cons_construct,
    constructTags_cons_installBridge, constructTags_nil]

theorem constructTags_cycleTrace (props : DOMBackendProps) (i : Nat) :
    constructTags (cycleTrace props i) = [i] := by
  simp [cycleTrace, constructTags_append, constructTags_evalMap,
    constructTags_dispatchMap, constructTags_constructionTrace, mkParams]

theorem constructTags_flatten_map (props : DOMBackendProps) (l : List Nat) :
    constructTags ((l.map (cycleTrace props)).flatten) = l := by
  induction l with
  | nil => rfl
  | cons a t ih =>
    simp [List.flatten, constructTags_append, constructTags_cycleTrace, ih]

theorem runFull_spec (props : DOMBackendProps) (n : Nat) :
    (runFull props n).loadCycleId = n
    ∧ navOfWindow (runFull props n).dom.window = ⟨resolvedUrl (some props.url), ""⟩
    ∧ (runFull props n).trace = ((List.range (n + 1)).map (cycleTrace props)).flatten := by
  induction n with
  | zero =>
    refine ⟨rfl, ?_, ?_⟩
    · simp [runFull, engineSettle, engineLoadStep, engineContentLoadedStep,
        mount, initDOM, navOfWindow_foldl, navOfWindow_newJSDOM, mkParams]
    · simp [runFull, engineSettle, engineLoadStep, engineContentLoadedStep,
        mount, initDOM, cycleTrace, navOfWindow_foldl, mkParams,
        List.range_succ, List.range_zero]
  | succ n ih =>
    obtain ⟨h1, h2, h3⟩ := ih
    refine ⟨?_, ?_, ?_⟩
    · simp [runFull, engineSettle, engineLoadStep, engineContentLoadedStep,
        reloadStep, h1]
    · simp [runFull, engineSettle, engineLoadStep, engineContentLoadedStep,
        reloadStep, initDOM, navOfWindow_foldl, navOfWindow_newJSDOM, mkParams]
    · simp [runFull, engineSettle, engineLoadStep, engineContentLoadedStep,
        reloadStep, initDOM, h1, h3, cycleTrace, navOfWindow_foldl,
        List.range_succ, List.flatten_append]

/-! The claims. -/

/-- Claim C1: on the full-load signal of the headless DOM the backend
dispatches exactly the sequence progress (value 1), load, load end,
navigation state change, filtered by handler presence — so each supplied
callback runs exactly once per load signal and in this fixed order — and
every payload carries the url and title of the navigation state observed
when the signal fires (the free parameter nav, independent of any
construction-time state); at the component level one engine load signal
appends exactly this dispatch block computed from the current window. -/
theorem fullLoad_dispatch_order (h : DOMHandlers) (nav : NavState)
    (props : DOMBackendProps) (st : BackendModel) :
    loadListener h nav = (fullLoadSeq nav).filter (fun d => handlerPresent h d.cb)
    ∧ loadListener allHandlers nav =
      [⟨.onLoadProgress, { url := nav.href, title := nav.title, progress := some 1 }⟩,
       ⟨.onLoad, { url := nav.href, title := nav.title, navigationType := some "other" }⟩,
       ⟨.onLoadEnd, { url := nav.href, title := nav.title, navigationType := some "other" }⟩,
       ⟨.onNavigationStateChange,
         { url := nav.href, title := nav.title, navigationType := some "other" }⟩]
    ∧ (engineLoadStep props st).trace = st.trace ++
        (loadListener props.domHandlers (navOfWindow st.dom.window)).map Action.dispatch :=
  ⟨loadListener_eq_filter h nav, rfl, rfl⟩

/-- Claim C2: every `initDOM` call dispatches, synchronously before it
returns, exactly one `onLoadStart` and one paired
`onNavigationStateChange`, both carrying the start payload with
loading = true; in the full lifecycle trace of a construction these two
dispatches come before every content-loaded and full-load action. -/
theorem loadStart_sync_once (q : InitDOMParams) (navL : NavState) :
    dispatchesOf (initDOM (withHandlers q allHandlers)).2 =
      [⟨.onLoadStart, startEventPayload ⟨resolvedUrl q.url, ""⟩⟩,
       ⟨.onNavigationStateChange, startEventPayload ⟨resolvedUrl q.url, ""⟩⟩]
    ∧ dispatchesOf (lifecycleTrace (withHandlers q allHandlers) navL) =
      [⟨.onLoadStart, startEventPayload ⟨resolvedUrl q.url, ""⟩⟩,
       ⟨.onNavigationStateChange, startEventPayload ⟨resolvedUrl q.url, ""⟩⟩] ++
      fullLoadSeq navL
    ∧ (startEventPayload ⟨resolvedUrl q.url, ""⟩).loading = some true := by
  refine ⟨?_, ?_, rfl⟩ <;>
    simp [initDOM, lifecycleTrace, dispatchesOf_append,
      dispatchesOf_constructionTrace, dispatchesOf_evalMap,
      dispatchesOf_dispatchMap, dispatchesOf_cons_dispatch, dispatchesOf_nil,
      navOfWindow_newJSDOM, withHandlers,
      startDispatches, allHandlers, dispatchIf, loadListener, fullLoadSeq]

/-- Claim C3: when the script-execution flag is false (or absent) the
injected main script is never evaluated on the content-loaded signal,
while a supplied (nonempty) before-content-loaded script is always
evaluated during the pre-parse phase of the DOM construction, whatever
the flag. -/
theorem script_execution_gating (q : InitDOMParams) (s : String) (hs : s ≠ "") :
    contentLoadedScripts { q with javaScriptEnabled := some false } = []
    ∧ contentLoadedScripts { q with javaScriptEnabled := none } = []
    ∧ (newJSDOM (withBeforeScript q s (some false))).window.evaluatedScripts = [s]
    ∧ (newJSDOM (withBeforeScript q s (some true))).window.evaluatedScripts = [s] := by
  refine ⟨?_, ?_, ?_, ?_⟩ <;>
    simp [contentLoadedScripts, jsFlag, evaluatedScripts_newJSDOM, truthyList,
      withBeforeScript, hs]

theorem script_execution_gating_witness :
    contentLoadedScripts { sampleParams with javaScriptEnabled := some false } = []
    ∧ (newJSDOM (withBeforeScript sampleParams "a" (some false))).window.evaluatedScripts =
      ["a"] :=
  ⟨(script_execution_gating sampleParams "a" (by decide)).1,
   (script_execution_gating sampleParams "a" (by decide)).2.2.1⟩

/-- Claim C4: `injectJavascript` is a no-op while the backend status is
loading (the state is completely unchanged), and when the status is
loaded it evaluates the script in the current window script context, the
effect being observable through the `getWindow` handle getter. -/
theorem injectJavascript_status_gating (props : DOMBackendProps)
    (st : BackendModel) (s : String) :
    (st.backendState = BackendState.loading →
      step props st (Cmd.injectJavascript s) = st)
    ∧ (st.backendState = BackendState.loaded →
      (makeHandle props (step props st (Cmd.injectJavascript s))).getWindow =
        windowEval st.dom.window s
      ∧ (makeHandle props
          (step props st (Cmd.injectJavascript s))).getWindow.evaluatedScripts =
        st.dom.window.evaluatedScripts ++ [s]
      ∧ (makeHandle props (step props st (Cmd.injectJavascript s))).getDocument =
        st.dom.window.document) := by
  constructor
  · intro hl
    simp [step, injectStep, hl]
  · intro hl
    refine ⟨?_, ?_, ?_⟩ <;> simp [step, injectStep, hl, makeHandle, windowEval]

theorem injectJavascript_status_gating_witness :
    step sampleProps (mount sampleProps) (Cmd.injectJavascript "z") =
      mount sampleProps
    ∧ (makeHandle sampleProps
        (step sampleProps loadedSample (Cmd.injectJavascript "z"))).getWindow.evaluatedScripts =
      loadedSample.dom.window.evaluatedScripts ++ ["z"] :=
  ⟨(injectJavascript_status_gating sampleProps (mount sampleProps) "z").1 rfl,
   ((injectJavascript_status_gating sampleProps loadedSample "z").2 rfl).2.1⟩

/-- Claim C5 counterexample: the claim says the status resets to loading
on every reconstruction caused by reload, yet after the first load cycle
completes and `reload` begins a new cycle (the counter moves to 1 and a
second construction appears in the trace) the backend status is still
loaded — the source never calls its status setter with loading again. -/
theorem backendState_no_reset_on_reload :
    reloadedAfterLoad.loadCycleId = 1
    ∧ constructTags reloadedAfterLoad.trace = [0, 1]
    ∧ reloadedAfterLoad.backendState = BackendState.loaded
    ∧ reloadedAfterLoad.backendState ≠ BackendState.loading := by
  refine ⟨rfl, by decide, rfl, by decide⟩

/-- Claim C5 as amended: the backend status starts at loading on a fresh
mount, the load event of the DOM flips it to loaded, and it then stays
loaded: a reload (or any reconstruction) leaves the status unchanged
rather than resetting it, as do the content-loaded signal and the
unimplemented navigation calls. Only a fresh mount is in the loading
state again. -/
theorem backendState_transitions (props : DOMBackendProps) (st : BackendModel) :
    (mount props).backendState = BackendState.loading
    ∧ (engineLoadStep props st).backendState = BackendState.loaded
    ∧ (reloadStep props st).backendState = st.backendState
    ∧ (engineContentLoadedStep props st).backendState = st.backendState
    ∧ (warnStep "stopLoading not implemented" st).backendState = st.backendState :=
  ⟨rfl, rfl, rfl, rfl, rfl⟩

/-- Claim C6: letting every load cycle complete, N reload calls produce N
additional full DOM reconstructions: the load cycle counter ends at N,
the accumulated trace is exactly the concatenation of the N+1 per-cycle
lifecycle traces (each re-emitting the full start and load sequence),
and the construction tags are the strictly increasing list 0, 1, ..., N. -/
theorem reload_cycles (props : DOMBackendProps) (n : Nat) :
    (runFull props n).loadCycleId = n
    ∧ (runFull props n).trace =
      ((List.range (n + 1)).map (cycleTrace props)).flatten
    ∧ constructTags (runFull props n).trace = List.range (n + 1)
    ∧ List.Pairwise (fun a b => a < b) (constructTags (runFull props n).trace) := by
  obtain ⟨h1, h2, h3⟩ := runFull_spec props n
  refine ⟨h1, h3, ?_, ?_⟩
  · rw [h3, constructTags_flatten_map]
  · rw [h3, constructTags_flatten_map]
    exact List.pairwise_lt_range (n + 1)

/-- Claim C7: both in-page bridge names expose the very same closure; a
non-string argument produces the descriptive error raised in the page
script context, and a string argument is delivered to `onMessage`
wrapped in a navigation-style payload whose data field is the posted
string. -/
theorem postMessage_bridge (nav : NavState) (v : JSValue) (s : String)
    (hv : v.typeofIsString = false) :
    windowPostMessage true nav v =
      Except.error "WebView: the argument of postMessage must be a string"
    ∧ reactNativeWebViewPostMessage = windowPostMessage
    ∧ windowPostMessage true nav (JSValue.str s) =
      Except.ok [⟨Callback.onMessage, messageEventPayload nav s⟩]
    ∧ (messageEventPayload nav s).data = some s := by
  refine ⟨?_, rfl, rfl, rfl⟩
  cases v with
  | str t => simp [JSValue.typeofIsString] at hv
  | num n => rfl
  | boolean b => rfl
  | undef => rfl
  | objectVal => rfl

theorem postMessage_bridge_witness :
    (JSValue.num 42).typeofIsString = false
    ∧ windowPostMessage true sampleNav (JSValue.num 42) =
      Except.error "WebView: the argument of postMessage must be a string"
    ∧ windowPostMessage true sampleNav (JSValue.str "hello") =
      Except.ok [⟨Callback.onMessage, messageEventPayload sampleNav "hello"⟩] :=
  ⟨rfl, (postMessage_bridge sampleNav (JSValue.num 42) "hello" rfl).1,
   (postMessage_bridge sampleNav (JSValue.num 42) "hello" rfl).2.2.1⟩

/-- Claim C8: every dispatch point guards on callback presence: with no
handlers supplied a whole lifecycle produces no dispatch at all and a
posted string message succeeds while invoking nothing; in general both
the start and the full-load sequences are exactly the unguarded
sequences filtered by handler presence, so a missing handler is skipped
and never an error. -/
theorem missing_handler_noop (q : InitDOMParams) (h : DOMHandlers)
    (nav : NavState) (s : String) :
    dispatchesOf (lifecycleTrace (withHandlers q noHandlers) nav) = []
    ∧ postMessageFn false nav (JSValue.str s) = Except.ok []
    ∧ startDispatches h nav = (startSeq nav).filter (fun d => handlerPresent h d.cb)
    ∧ loadListener h nav = (fullLoadSeq nav).filter (fun d => handlerPresent h d.cb) := by
  refine ⟨?_, rfl, startDispatches_eq_filter h nav, loadListener_eq_filter h nav⟩
  simp [lifecycleTrace, dispatchesOf_append, dispatchesOf_constructionTrace,
    dispatchesOf_evalMap, dispatchesOf_dispatchMap, withHandlers,
    startDispatches, loadListener, noHandlers, dispatchIf]

/-- Claim C9: `stopLoading`, `goBack` and `goForward` each emit exactly
one console warning and change nothing else: the resulting state is the
old state with the warning appended, so status, load cycle counter, DOM
instance and trace are untouched. -/
theorem unimplemented_nav_noop (props : DOMBackendProps) (st : BackendModel) :
    step props st Cmd.stopLoading =
      { st with warnings := st.warnings ++ ["stopLoading not implemented"] }
    ∧ step props st Cmd.goBack =
      { st with warnings := st.warnings ++ ["goBack not implemented"] }
    ∧ step props st Cmd.goForward =
      { st with warnings := st.warnings ++ ["goForward not implemented"] }
    ∧ (step props st Cmd.stopLoading).backendState = st.backendState
    ∧ (step props st Cmd.goBack).loadCycleId = st.loadCycleId
    ∧ (step props st Cmd.goForward).dom = st.dom
    ∧ (step props st Cmd.stopLoading).trace = st.trace :=
  ⟨rfl, rfl, rfl, rfl, rfl, rfl, rfl⟩

/-- Claim C10: the imperative handle exposes, besides the seven documented
operations, a `dom` field that is exactly the current headless DOM
instance, the same instance the `getWindow` and `getDocument` getters
read from. -/
theorem handle_exposes_dom (props : DOMBackendProps) (st : BackendModel) :
    (makeHandle props st).dom = st.dom
    ∧ (makeHandle props st).getWindow = (makeHandle props st).dom.window
    ∧ (makeHandle props st).getDocument = (makeHandle props st).dom.window.document
    ∧ (makeHandle props st).reload = step props st Cmd.reload :=
  ⟨rfl, rfl, rfl, rfl⟩

end Ersatz
